import Mathlib

set_option maxHeartbeats 1000000

/-!
Verification of the PX4 TECS (Total Energy Control System) core,
a shallow embedding of src/lib/tecs/TECS.cpp.

Floats are modelled as rationals; a float input that may be non-finite
(NaN/inf) is modelled as an Option, with none standing for a non-finite
value.  Timestamps are natural numbers of microseconds, and the monotonic
clock read at the top of each entry point is passed as an explicit
argument.  The jerk-limited trajectory generators live in
lib/motion_planning, which is not part of the provided sources; the
stage that runs them (_calculateHeightRateSetpoint) only writes
hgt_setpoint and hgt_rate_setpoint plus generator-internal state, so the
step function takes the pair it produces as an input.
-/

/-- Machine epsilon of IEEE single precision, FLT_EPSILON = 2^-23. -/
def FLT_EPSILON : ℚ := 1 / 8388608

/-- Minimum allowed value of _dt in seconds (TECS.cpp line 44). -/
def DT_MIN : ℚ := 1 / 1000

/-- Maximum value of _dt allowed before a filter state reset (line 45). -/
def DT_MAX : ℚ := 1

/-- Modelled from the spec: DT_DEFAULT, the fallback time step of 0.02 s,
is declared in TECS.hpp which is not among the provided sources. -/
def DT_DEFAULT : ℚ := 1 / 50

/-- Standard gravity, CONSTANTS_ONE_G from lib/geo (9.80665 m/s^2). -/
def CONSTANTS_ONE_G : ℚ := 980665 / 100000

/-- Modelled from the spec: kTASErrorPercentage (default 0.1), declared in
TECS.hpp which is not among the provided sources. -/
def kTASErrorPercentage : ℚ := 1 / 10

/-- math::max from lib/mathlib: (a > b) ? a : b. -/
def qmax (a b : ℚ) : ℚ := if b < a then a else b

/-- math::min from lib/mathlib: (a < b) ? a : b. -/
def qmin (a b : ℚ) : ℚ := if a < b then a else b

/-- fabsf. -/
def qabs (a : ℚ) : ℚ := if a < 0 then -a else a

/-- math::constrain from lib/mathlib:
(val < min) ? min : ((val > max) ? max : val). -/
def constrain (v lo hi : ℚ) : ℚ := if v < lo then lo else if v > hi then hi else v

/-- The published TECS mode (tecs_mode_t). -/
inductive TecsMode
  | NORMAL
  | UNDERSPEED
  | BAD_DESCENT
  | CLIMBOUT
deriving DecidableEq, Repr

/-- Tuning parameters and host-set flags of the TECS instance.  These are
set through setters between steps and are read-only during a step. -/
structure Config where
  equivalent_airspeed_min : ℚ
  equivalent_airspeed_max : ℚ
  equivalent_airspeed_trim : ℚ
  max_climb_rate : ℚ
  max_sink_rate : ℚ
  min_sink_rate : ℚ
  vert_accel_limit : ℚ
  pitch_damping_gain : ℚ
  throttle_damping_gain : ℚ
  integrator_gain_pitch : ℚ
  integrator_gain_throttle : ℚ
  airspeed_error_gain : ℚ
  pitch_speed_weight : ℚ
  load_factor_correction : ℚ
  load_factor : ℚ
  throttle_slewrate : ℚ
  tas_estimate_freq : ℚ
  speed_derivative_time_const : ℚ
  STE_rate_time_const : ℚ
  SEB_rate_ff : ℚ
  detect_underspeed_enabled : Bool
  airspeed_enabled : Bool

/-- The mutable state of the TECS instance (the private fields of class
TECS threaded through the stages of a step). -/
structure State where
  state_update_timestamp : ℕ
  speed_update_timestamp : ℕ
  pitch_update_timestamp : ℕ
  dt : ℚ
  EAS : Option ℚ
  EAS_setpoint : ℚ
  TAS_setpoint : ℚ
  TAS_setpoint_last : ℚ
  TAS_setpoint_adj : ℚ
  TAS_rate_setpoint : ℚ
  TAS_min : ℚ
  TAS_max : ℚ
  tas_state : ℚ
  tas_rate_state : ℚ
  tas_innov : ℚ
  tas_rate_raw : ℚ
  tas_rate_filtered : ℚ
  tas_rate_filter_state : ℚ
  tas_rate_filter_alpha : ℚ
  vert_pos_state : ℚ
  vert_vel_state : ℚ
  hgt_setpoint : ℚ
  hgt_rate_setpoint : ℚ
  percent_undersped : ℚ
  SPE_estimate : ℚ
  SKE_estimate : ℚ
  SPE_rate : ℚ
  SKE_rate : ℚ
  SPE_setpoint : ℚ
  SKE_setpoint : ℚ
  SPE_rate_setpoint : ℚ
  SKE_rate_setpoint : ℚ
  STE_error : ℚ
  STE_rate_setpoint : ℚ
  STE_rate_error : ℚ
  ste_rate_error_filter_state : ℚ
  ste_rate_error_filter_alpha : ℚ
  STE_rate_min : ℚ
  STE_rate_max : ℚ
  SEB_error : ℚ
  SEB_rate_error : ℚ
  throttle_integ_state : ℚ
  pitch_integ_state : ℚ
  last_throttle_setpoint : ℚ
  last_pitch_setpoint : ℚ
  pitch_setpoint_unc : ℚ
  SPE_weighting : ℚ
  SKE_weighting : ℚ
  throttle_setpoint_min : ℚ
  throttle_setpoint_max : ℚ
  pitch_setpoint_min : ℚ
  pitch_setpoint_max : ℚ
  throttle_trim : ℚ
  states_init : Bool
  climbout_mode_active : Bool
  uncommanded_descent_recovery : Bool
  tecs_mode : TecsMode

/-- The stored _EAS field as a rational.  When it holds a non-finite value
(none, i.e. NaN in the C code) the C computation reading it would poison
downstream floats with NaN; we return 0 there, and theorems exercising
this read guard it with the hypothesis that the stored EAS is finite. -/
def storedEAS (s : State) : ℚ := s.EAS.getD 0

/-- TECS::update_vehicle_state_estimates (TECS.cpp lines 58-98).  The
TAS-rate noise filter is an AlphaFilter from lib/mathlib (not in the
sources); modelled from the spec as a first-order IIR
state += alpha * (sample - state). -/
def update_vehicle_state_estimates (cfg : Config) (now : ℕ)
    (equivalent_airspeed : Option ℚ) (speed_deriv_forward : ℚ)
    (altitude_lock : Bool) (altitude vz : ℚ) (s : State) : State :=
  let dtv : ℚ := qmax (((now - s.state_update_timestamp : ℕ) : ℚ) * (1 / 1000000)) DT_MIN
  let reset_altitude : Prop :=
    s.state_update_timestamp = 0 ∨ DT_MAX < dtv ∨ altitude_lock = false
  let meas : Bool := equivalent_airspeed.isSome && cfg.airspeed_enabled
  let fstate : ℚ := s.tas_rate_filter_state +
    s.tas_rate_filter_alpha * (speed_deriv_forward - s.tas_rate_filter_state)
  { s with
    states_init := if reset_altitude then false else s.states_init
    state_update_timestamp := now
    EAS := equivalent_airspeed
    vert_vel_state := -vz
    vert_pos_state := altitude
    tas_rate_raw := if meas then speed_deriv_forward else 0
    tas_rate_filter_state := if meas then fstate else s.tas_rate_filter_state
    tas_rate_filtered := if meas then fstate else 0 }

/-- TECS::_update_speed_states (lines 100-149): second-order complementary
filter on true airspeed. -/
def update_speed_states (cfg : Config) (now : ℕ)
    (equivalent_airspeed_setpoint : ℚ) (equivalent_airspeed : Option ℚ)
    (EAS2TAS : ℚ) (s : State) : State :=
  let dtv : ℚ := constrain (((now - s.speed_update_timestamp : ℕ) : ℚ) * (1 / 1000000)) DT_MIN DT_MAX
  let EASv : ℚ :=
    if cfg.airspeed_enabled then equivalent_airspeed.getD cfg.equivalent_airspeed_trim
    else cfg.equivalent_airspeed_trim
  let tas0 : ℚ := if s.speed_update_timestamp = 0 then EASv * EAS2TAS else s.tas_state
  let rate0 : ℚ := if s.speed_update_timestamp = 0 then 0 else s.tas_rate_state
  let innov : ℚ := EASv * EAS2TAS - tas0
  let w : ℚ := cfg.tas_estimate_freq
  let rate1 : ℚ := rate0 + innov * w * w * dtv
  let tas_state_input : ℚ := rate1 + s.tas_rate_raw + innov * w * (14142 / 10000)
  let new_tas : ℚ := tas0 + tas_state_input * dtv
  { s with
    EAS := some EASv
    EAS_setpoint := equivalent_airspeed_setpoint
    TAS_setpoint := equivalent_airspeed_setpoint * EAS2TAS
    TAS_max := cfg.equivalent_airspeed_max * EAS2TAS
    TAS_min := cfg.equivalent_airspeed_min * EAS2TAS
    tas_innov := innov
    tas_rate_state :=
      if new_tas < 0 then -tas0 / dtv - s.tas_rate_raw - innov * w * (14142 / 10000)
      else rate1
    tas_state := if new_tas < 0 then 0 else new_tas
    speed_update_timestamp := now }

/-- The guarded divisor max(tas_state, FLT_EPSILON) used for the TAS-rate
setpoint limits in TECS::_update_speed_setpoint (lines 171-172). -/
def tasRateDivisor (s : State) : ℚ := qmax s.tas_state FLT_EPSILON

/-- TECS::_update_speed_setpoint (lines 151-186). -/
def update_speed_setpoint (cfg : Config) (s : State) : State :=
  let t0 : ℚ :=
    if s.uncommanded_descent_recovery then s.TAS_min
    else if FLT_EPSILON < s.percent_undersped then
      s.TAS_min * s.percent_undersped + (1 - s.percent_undersped) * s.TAS_setpoint
    else s.TAS_setpoint
  let t1 : ℚ := constrain t0 s.TAS_min s.TAS_max
  let max_tas_rate_sp : ℚ := (1 / 2) * s.STE_rate_max / tasRateDivisor s
  let min_tas_rate_sp : ℚ := (1 / 2) * s.STE_rate_min / tasRateDivisor s
  let adj : ℚ := constrain t1 s.TAS_min s.TAS_max
  { s with
    TAS_setpoint := t1
    TAS_setpoint_adj := adj
    TAS_rate_setpoint :=
      if cfg.airspeed_enabled then
        constrain ((adj - s.tas_state) * cfg.airspeed_error_gain) min_tas_rate_sp max_tas_rate_sp
      else 0 }

/-- The underspeed ramp of TECS::_detect_underspeed (lines 212-233) as a
function of the stored TAS_min and the filtered TAS state. -/
def percentUndersped (cfg : Config) (TASmin tas : ℚ) : ℚ :=
  if cfg.detect_underspeed_enabled = false then 0
  else
    let tas_error_bound : ℚ := kTASErrorPercentage * cfg.equivalent_airspeed_trim
    let tas_underspeed_soft_bound : ℚ := kTASErrorPercentage * cfg.equivalent_airspeed_trim
    let tas_fully_undersped : ℚ := qmax (TASmin - tas_error_bound - tas_underspeed_soft_bound) 0
    let tas_starting_to_underspeed : ℚ := qmax (TASmin - tas_error_bound) tas_fully_undersped
    1 - constrain ((tas - tas_fully_undersped) /
        qmax (tas_starting_to_underspeed - tas_fully_undersped) FLT_EPSILON) 0 1

/-- TECS::_detect_underspeed (lines 212-233). -/
def detect_underspeed (cfg : Config) (s : State) : State :=
  { s with percent_undersped := percentUndersped cfg s.TAS_min s.tas_state }

/-- TECS::_update_speed_height_weights (lines 636-656). -/
def update_speed_height_weights (cfg : Config) (s : State) : State :=
  let w0 : ℚ := constrain cfg.pitch_speed_weight 0 2
  let w : ℚ :=
    if s.climbout_mode_active = true ∧ cfg.airspeed_enabled = true then 2
    else if FLT_EPSILON < s.percent_undersped ∧ cfg.airspeed_enabled = true then
      2 * s.percent_undersped + (1 - s.percent_undersped) * w0
    else if cfg.airspeed_enabled = false then 0
    else w0
  { s with
    SPE_weighting := constrain (2 - w) 0 1
    SKE_weighting := constrain w 0 1 }

/-- TECS::_detect_uncommanded_descent (lines 361-389). -/
def detect_uncommanded_descent (cfg : Config) (s : State) : State :=
  let STE_rate : ℚ := s.SPE_rate + s.SKE_rate
  let underspeed_detected : Prop := FLT_EPSILON < s.percent_undersped
  let enter_mode : Prop :=
    s.uncommanded_descent_recovery = false ∧ ¬underspeed_detected ∧
      200 < s.STE_error ∧ STE_rate < 0 ∧
      s.throttle_setpoint_max * (9 / 10) ≤ s.last_throttle_setpoint
  let exit_mode : Prop :=
    s.uncommanded_descent_recovery = true ∧ (underspeed_detected ∨ s.STE_error < 0)
  { s with
    uncommanded_descent_recovery :=
      if enter_mode then true
      else if exit_mode then false
      else s.uncommanded_descent_recovery }

/-- TECS::_update_energy_estimates (lines 235-260).  SEB_setpoint() is
declared in TECS.hpp (not in the sources); modelled from the spec as
SPE_setpoint * SPE_weighting - SKE_setpoint * SKE_weighting on the
just-computed setpoints. -/
def update_energy_estimates (cfg : Config) (s : State) : State :=
  let spe_sp : ℚ := s.hgt_setpoint * CONSTANTS_ONE_G
  let ske_sp : ℚ := (1 / 2) * s.TAS_setpoint_adj * s.TAS_setpoint_adj
  { s with
    SPE_setpoint := spe_sp
    SKE_setpoint := ske_sp
    STE_error := spe_sp - s.SPE_estimate + ske_sp - s.SKE_estimate
    SEB_error := (spe_sp * s.SPE_weighting - ske_sp * s.SKE_weighting) -
      (s.SPE_estimate * s.SPE_weighting - s.SKE_estimate * s.SKE_weighting)
    SPE_rate_setpoint := s.hgt_rate_setpoint * CONSTANTS_ONE_G
    SKE_rate_setpoint := s.tas_state * s.TAS_rate_setpoint
    SPE_estimate := s.vert_pos_state * CONSTANTS_ONE_G
    SKE_estimate := (1 / 2) * s.tas_state * s.tas_state
    SPE_rate := s.vert_vel_state * CONSTANTS_ONE_G
    SKE_rate := s.tas_state * s.tas_rate_filtered }

/-- The predicted (feedforward) throttle of TECS::_update_throttle_setpoint
(lines 285-295), as a function of the constrained STE rate setpoint. -/
def throttlePredicted (s : State) (ste_rate_sp : ℚ) : ℚ :=
  if 0 ≤ ste_rate_sp then
    s.throttle_trim + ste_rate_sp / s.STE_rate_max * (s.throttle_setpoint_max - s.throttle_trim)
  else
    s.throttle_trim + ste_rate_sp / s.STE_rate_min * (s.throttle_setpoint_min - s.throttle_trim)

/-- The constrained STE rate setpoint of TECS::_update_throttle_setpoint
(lines 266, 276, 278), including the turn compensation term. -/
def throttleSTERateSetpoint (cfg : Config) (s : State) : ℚ :=
  constrain (s.SPE_rate_setpoint + s.SKE_rate_setpoint +
      cfg.load_factor_correction * (cfg.load_factor - 1))
    s.STE_rate_min s.STE_rate_max

/-- TECS::_update_throttle_setpoint (lines 262-359). -/
def update_throttle_setpoint (cfg : Config) (s : State) : State :=
  let ste_rate_sp : ℚ := throttleSTERateSetpoint cfg s
  let fstate : ℚ := s.ste_rate_error_filter_state + s.ste_rate_error_filter_alpha *
    ((-s.SPE_rate - s.SKE_rate + s.SPE_rate_setpoint + s.SKE_rate_setpoint) -
      s.ste_rate_error_filter_state)
  let ste_rate_err : ℚ := fstate
  let throttle_predicted : ℚ := throttlePredicted s ste_rate_sp
  let STE_rate_to_throttle : ℚ := 1 / (s.STE_rate_max - s.STE_rate_min)
  let t0 : ℚ := constrain (ste_rate_err * cfg.throttle_damping_gain * STE_rate_to_throttle +
      throttle_predicted) s.throttle_setpoint_min s.throttle_setpoint_max
  let integ_state_max : ℚ := s.throttle_setpoint_max - t0
  let integ_state_min : ℚ := s.throttle_setpoint_min - t0
  let integ_input0 : ℚ := ste_rate_err * cfg.integrator_gain_throttle * s.dt *
    STE_rate_to_throttle * (1 - s.percent_undersped)
  let integ_input : ℚ :=
    if integ_state_max < s.throttle_integ_state then qmin 0 integ_input0
    else if s.throttle_integ_state < integ_state_min then qmax 0 integ_input0
    else integ_input0
  let integ2 : ℚ :=
    if cfg.airspeed_enabled then
      (if 0 < cfg.integrator_gain_throttle then
        (if s.climbout_mode_active then integ_state_max
         else s.throttle_integ_state + integ_input)
       else 0)
    else s.throttle_integ_state
  let t1 : ℚ := if cfg.airspeed_enabled then t0 + integ2 else throttle_predicted
  let t2 : ℚ := s.percent_undersped * s.throttle_setpoint_max + (1 - s.percent_undersped) * t1
  let t3 : ℚ :=
    if 1 / 100 < qabs cfg.throttle_slewrate then
      constrain t2
        (s.last_throttle_setpoint -
          s.dt * (s.throttle_setpoint_max - s.throttle_setpoint_min) * cfg.throttle_slewrate)
        (s.last_throttle_setpoint +
          s.dt * (s.throttle_setpoint_max - s.throttle_setpoint_min) * cfg.throttle_slewrate)
    else t2
  { s with
    STE_rate_setpoint := ste_rate_sp
    ste_rate_error_filter_state := fstate
    STE_rate_error := ste_rate_err
    throttle_integ_state := integ2
    last_throttle_setpoint := constrain t3 s.throttle_setpoint_min s.throttle_setpoint_max }

/-- The derivative from climb angle to SEB rate, tas_state * g
(TECS.cpp line 411); the pitch law divides by it. -/
def climbAngleToSEBRate (s : State) : ℚ := s.tas_state * CONSTANTS_ONE_G

/-- The pitch rate increment dt * vert_accel_limit / tas_state of
TECS.cpp line 453 (unguarded division by the TAS state). -/
def pitchIncrement (cfg : Config) (s : State) : ℚ :=
  s.dt * cfg.vert_accel_limit / s.tas_state

/-- TECS::_update_pitch_setpoint (lines 391-456). -/
def update_pitch_setpoint (cfg : Config) (s : State) : State :=
  let SEB_rate_setpoint : ℚ := s.SPE_rate_setpoint * s.SPE_weighting -
    s.SKE_rate_setpoint * s.SKE_weighting
  let SEB_rate_err : ℚ := SEB_rate_setpoint -
    (s.SPE_rate * s.SPE_weighting - s.SKE_rate * s.SKE_weighting)
  let c2s : ℚ := climbAngleToSEBRate s
  let integ_input0 : ℚ := SEB_rate_err * cfg.integrator_gain_pitch
  let integ_input : ℚ :=
    if s.pitch_setpoint_max < s.pitch_setpoint_unc then qmin integ_input0 0
    else if s.pitch_setpoint_unc < s.pitch_setpoint_min then qmax integ_input0 0
    else integ_input0
  let integ2 : ℚ :=
    if 0 < cfg.integrator_gain_pitch then s.pitch_integ_state + integ_input * s.dt
    else 0
  let corr0 : ℚ := SEB_rate_err * cfg.pitch_damping_gain + integ2 +
    cfg.SEB_rate_ff * SEB_rate_setpoint
  let corr : ℚ :=
    if s.climbout_mode_active then corr0 + s.pitch_setpoint_min * c2s else corr0
  let unc : ℚ := corr / c2s
  let pitch_sp : ℚ := constrain unc s.pitch_setpoint_min s.pitch_setpoint_max
  let inc : ℚ := pitchIncrement cfg s
  { s with
    SEB_rate_error := SEB_rate_err
    pitch_integ_state := integ2
    pitch_setpoint_unc := unc
    last_pitch_setpoint :=
      constrain pitch_sp (s.last_pitch_setpoint - inc) (s.last_pitch_setpoint + inc) }

/-- TECS::_update_STE_rate_lim (lines 556-563). -/
def update_STE_rate_lim (cfg : Config) (s : State) : State :=
  { s with
    STE_rate_max := qmax cfg.max_climb_rate FLT_EPSILON * CONSTANTS_ONE_G
    STE_rate_min := -(qmax cfg.min_sink_rate FLT_EPSILON) * CONSTANTS_ONE_G }

/-- TECS::_initialize_states (lines 501-554).  resetIntegrals and the
filter objects are declared in TECS.hpp / lib/mathlib (not in the
sources); modelled from the spec: resetIntegrals zeroes both integrator
states, and setParameters of the first-order IIR filters stores the gain
sample_interval / (time_constant + sample_interval).  The trajectory
generators (lib/motion_planning, reset to the baro altitude here) carry
no state in this model. -/
def initStates (cfg : Config) (pitch throttle_trim baro_altitude pitch_min_climbout EAS2TAS : ℚ)
    (s : State) : State :=
  let reset : Prop := s.pitch_update_timestamp = 0 ∨ DT_MAX < s.dt ∨ s.states_init = false
  let climb : Prop := ¬reset ∧ s.climbout_mode_active = true
  { s with
    vert_vel_state := if reset then 0 else s.vert_vel_state
    vert_pos_state := if reset then baro_altitude else s.vert_pos_state
    tas_rate_state := if reset then 0 else s.tas_rate_state
    tas_state := if reset then storedEAS s * EAS2TAS else s.tas_state
    last_throttle_setpoint := if reset then throttle_trim else s.last_throttle_setpoint
    last_pitch_setpoint :=
      if reset then constrain pitch s.pitch_setpoint_min s.pitch_setpoint_max
      else s.last_pitch_setpoint
    pitch_setpoint_unc :=
      if reset then constrain pitch s.pitch_setpoint_min s.pitch_setpoint_max
      else s.pitch_setpoint_unc
    TAS_setpoint_last :=
      if reset then storedEAS s * EAS2TAS
      else if climb then storedEAS s * EAS2TAS
      else s.TAS_setpoint_last
    TAS_setpoint_adj :=
      if reset then storedEAS s * EAS2TAS
      else if climb then storedEAS s * EAS2TAS
      else s.TAS_setpoint_adj
    uncommanded_descent_recovery :=
      if reset then false else if climb then false else s.uncommanded_descent_recovery
    STE_rate_error := if reset then 0 else s.STE_rate_error
    hgt_setpoint :=
      if reset then baro_altitude else if climb then baro_altitude else s.hgt_setpoint
    throttle_integ_state := if reset then 0 else s.throttle_integ_state
    pitch_integ_state := if reset then 0 else s.pitch_integ_state
    dt := if reset ∧ (DT_MAX < s.dt ∨ s.dt < DT_MIN) then DT_DEFAULT else s.dt
    pitch_setpoint_min := if climb then pitch_min_climbout else s.pitch_setpoint_min
    throttle_setpoint_min :=
      if climb then s.throttle_setpoint_max - 1 / 100 else s.throttle_setpoint_min
    ste_rate_error_filter_alpha := DT_DEFAULT / (cfg.STE_rate_time_const + DT_DEFAULT)
    ste_rate_error_filter_state := 0
    tas_rate_filter_alpha := DT_DEFAULT / (cfg.speed_derivative_time_const + DT_DEFAULT)
    tas_rate_filter_state := 0
    states_init := true }

/-- The mode published at the end of update_pitch_throttle
(lines 619-632), as a function of percent_undersped,
uncommanded_descent_recovery and climbout_mode_active. -/
def publishedMode (percent_undersped : ℚ) (uncommanded climbout : Bool) : TecsMode :=
  if FLT_EPSILON < percent_undersped then TecsMode.UNDERSPEED
  else if uncommanded = true then TecsMode.BAD_DESCENT
  else if climbout = true then TecsMode.CLIMBOUT
  else TecsMode.NORMAL

/-- The stages of update_pitch_throttle from the underspeed detector to
the energy accountant (lines 595-608).  Modelled from the spec: the
trajectory-generator stage _calculateHeightRateSetpoint (lines 471-499)
runs between the speed-setpoint resolution and the energy accountant and
writes only hgt_setpoint, hgt_rate_setpoint and generator-internal
state; its two outputs are taken as the input pair hgt. -/
def midStep (cfg : Config) (hgt : ℚ × ℚ) (s : State) : State :=
  let s1 := detect_underspeed cfg s
  let s2 := update_speed_height_weights cfg s1
  let s3 := detect_uncommanded_descent cfg s2
  let s4 := update_speed_setpoint cfg s3
  let s5 := { s4 with hgt_setpoint := hgt.1, hgt_rate_setpoint := hgt.2 }
  update_energy_estimates cfg s5

/-- The tail of the suffix: throttle law, pitch law and mode
publication (lines 610-632). -/
def stepFromDetect (cfg : Config) (hgt : ℚ × ℚ) (s : State) : State :=
  let s6 := midStep cfg hgt s
  let s7 := update_throttle_setpoint cfg s6
  let s8 := update_pitch_setpoint cfg s7
  { s8 with
    tecs_mode := publishedMode s8.percent_undersped
      s8.uncommanded_descent_recovery s8.climbout_mode_active }

/-- The pre-stages of TECS::update_pitch_throttle (lines 571-592): dt
computation, limit capture, initializer, speed filter and STE rate
limits.  The altitude/height-rate setpoint inputs of the C function feed
only the trajectory-generator stage, whose output pair is passed to
stepFromDetect as hgt. -/
def preStep (cfg : Config) (now : ℕ)
    (pitch baro_altitude EAS_setpoint : ℚ) (equivalent_airspeed : Option ℚ)
    (eas_to_tas : ℚ) (climb_out_setpoint : Bool)
    (pitch_min_climbout throttle_min throttle_max throttle_trim
      pitch_limit_min pitch_limit_max : ℚ) (s : State) : State :=
  let dt0 : ℚ := qmax (((now - s.pitch_update_timestamp : ℕ) : ℚ) * (1 / 1000000)) DT_MIN
  let s0 := { s with
    dt := dt0
    throttle_setpoint_max := throttle_max
    throttle_setpoint_min := throttle_min
    pitch_setpoint_max := pitch_limit_max
    pitch_setpoint_min := pitch_limit_min
    climbout_mode_active := climb_out_setpoint
    throttle_trim := throttle_trim }
  let s1 := initStates cfg pitch throttle_trim baro_altitude pitch_min_climbout eas_to_tas s0
  let s2 := update_speed_states cfg now EAS_setpoint equivalent_airspeed eas_to_tas s1
  update_STE_rate_lim cfg s2

/-- TECS::update_pitch_throttle (lines 565-634), the main step: the
pre-stages (dt and limit capture, initializer, speed filter, STE rate
limits) followed by the suffix from the underspeed detector on. -/
def update_pitch_throttle (cfg : Config) (now : ℕ)
    (pitch baro_altitude EAS_setpoint : ℚ) (equivalent_airspeed : Option ℚ)
    (eas_to_tas : ℚ) (climb_out_setpoint : Bool)
    (pitch_min_climbout throttle_min throttle_max throttle_trim
      pitch_limit_min pitch_limit_max : ℚ)
    (hgt : ℚ × ℚ) (s : State) : State :=
  let s3 := preStep cfg now pitch baro_altitude EAS_setpoint equivalent_airspeed
    eas_to_tas climb_out_setpoint pitch_min_climbout throttle_min throttle_max
    throttle_trim pitch_limit_min pitch_limit_max s
  let s4 := stepFromDetect cfg hgt s3
  { s4 with pitch_update_timestamp := now }

/-- A neutral base state (all numeric fields 0) used to build the concrete
states of the witnesses and counterexamples. -/
def baseState : State where
  state_update_timestamp := 0
  speed_update_timestamp := 0
  pitch_update_timestamp := 0
  dt := 1 / 50
  EAS := some 0
  EAS_setpoint := 0
  TAS_setpoint := 0
  TAS_setpoint_last := 0
  TAS_setpoint_adj := 0
  TAS_rate_setpoint := 0
  TAS_min := 0
  TAS_max := 0
  tas_state := 0
  tas_rate_state := 0
  tas_innov := 0
  tas_rate_raw := 0
  tas_rate_filtered := 0
  tas_rate_filter_state := 0
  tas_rate_filter_alpha := 0
  vert_pos_state := 0
  vert_vel_state := 0
  hgt_setpoint := 0
  hgt_rate_setpoint := 0
  percent_undersped := 0
  SPE_estimate := 0
  SKE_estimate := 0
  SPE_rate := 0
  SKE_rate := 0
  SPE_setpoint := 0
  SKE_setpoint := 0
  SPE_rate_setpoint := 0
  SKE_rate_setpoint := 0
  STE_error := 0
  STE_rate_setpoint := 0
  STE_rate_error := 0
  ste_rate_error_filter_state := 0
  ste_rate_error_filter_alpha := 0
  STE_rate_min := 0
  STE_rate_max := 0
  SEB_error := 0
  SEB_rate_error := 0
  throttle_integ_state := 0
  pitch_integ_state := 0
  last_throttle_setpoint := 0
  last_pitch_setpoint := 0
  pitch_setpoint_unc := 0
  SPE_weighting := 0
  SKE_weighting := 0
  throttle_setpoint_min := 0
  throttle_setpoint_max := 0
  pitch_setpoint_min := 0
  pitch_setpoint_max := 0
  throttle_trim := 0
  states_init := true
  climbout_mode_active := false
  uncommanded_descent_recovery := false
  tecs_mode := TecsMode.NORMAL

/-- A representative configuration (default-flavoured tuning values) used
to build the concrete configurations of witnesses and counterexamples. -/
def baseConfig : Config where
  equivalent_airspeed_min := 19
  equivalent_airspeed_max := 30
  equivalent_airspeed_trim := 20
  max_climb_rate := 5
  max_sink_rate := 5
  min_sink_rate := 2
  vert_accel_limit := 7
  pitch_damping_gain := 1 / 10
  throttle_damping_gain := 1 / 10
  integrator_gain_pitch := 0
  integrator_gain_throttle := 0
  airspeed_error_gain := 1 / 10
  pitch_speed_weight := 1
  load_factor_correction := 0
  load_factor := 1
  throttle_slewrate := 0
  tas_estimate_freq := 2
  speed_derivative_time_const := 1 / 2
  STE_rate_time_const := 1 / 2
  SEB_rate_ff := 1
  detect_underspeed_enabled := true
  airspeed_enabled := true

/-- Configuration with the underspeed detector disabled. -/
def cfgNoDetect : Config := { baseConfig with detect_underspeed_enabled := false }

/-- Configuration with airspeed sensing disabled. -/
def cfgNoAirspeed : Config := { baseConfig with airspeed_enabled := false }

/-- Configuration with airspeed sensing disabled and a trim airspeed of
15 m/s. -/
def cfgTrim15 : Config :=
  { baseConfig with airspeed_enabled := false, equivalent_airspeed_trim := 15 }

/-- A mid-flight state whose last published pitch setpoint is 0.5 rad,
as left by an earlier call whose pitch limits allowed it. -/
def sPitchJump : State :=
  { baseState with
    states_init := true
    pitch_update_timestamp := 1000000
    speed_update_timestamp := 1000000
    tas_state := 20
    last_pitch_setpoint := 1 / 2
    EAS := some 20 }

/-- An equivalent airspeed that puts the underspeed ramp exactly at
FLT_EPSILON (with TAS_min = 19 and EAS_trim = 20 the ramp spans
15..17 and 17 - 2 eps maps to percent_undersped = eps). -/
def vEps : ℚ := 17 - 2 * FLT_EPSILON

/-- A state about to run its first speed-filter update (so the filter
resets to the measured airspeed vEps). -/
def sEpsU : State :=
  { baseState with
    states_init := true
    pitch_update_timestamp := 1000000
    speed_update_timestamp := 0
    EAS := some vEps }

/-- A mid-flight state prior to an altitude-lock loss. -/
def sStale : State :=
  { baseState with
    state_update_timestamp := 980000
    speed_update_timestamp := 990000
    pitch_update_timestamp := 990000
    states_init := true }

/-- A state whose speed filter has never run (speed_update_timestamp = 0)
with no measured forward acceleration. -/
def sSpeedReset : State :=
  { baseState with
    states_init := true
    pitch_update_timestamp := 1000000
    speed_update_timestamp := 0
    EAS := some 22 }

/-- A state deep in underspeed: the filtered TAS (15) sits at the fully
undersped threshold for TAS_min = 19, EAS_trim = 20. -/
def sUnderspeedFull : State :=
  { baseState with
    TAS_min := 19
    tas_state := 15
    throttle_setpoint_min := 0
    throttle_setpoint_max := 1
    STE_rate_max := 49
    STE_rate_min := -19 }

/-- A steady state whose published pitch lies inside the pitch limits
passed to the next call. -/
def sInRange : State :=
  { baseState with
    states_init := true
    pitch_update_timestamp := 1000000
    speed_update_timestamp := 1000000
    tas_state := 20
    last_pitch_setpoint := 0
    EAS := some 20 }

/-- A state whose stale energy estimates (0) disagree with the estimates
derived from the current vertical position (10 m) and TAS (20 m/s). -/
def sEnergy : State :=
  { baseState with vert_pos_state := 10, tas_state := 20 }

/-- A state meeting every enter condition of the uncommanded-descent
latch except that percent_undersped is the nonzero value FLT_EPSILON. -/
def sLatchEps : State :=
  { baseState with
    percent_undersped := FLT_EPSILON
    STE_error := 300
    SPE_rate := -1
    throttle_setpoint_max := 1
    last_throttle_setpoint := 95 / 100 }

/-- A state carrying a nonzero throttle integrator (as accumulated while
airspeed sensing was still active). -/
def sIntegKeep : State :=
  { baseState with throttle_integ_state := 3 / 10 }

/-- A state whose filtered TAS sits exactly at TAS_min (19 m/s, with the
trim at 20 m/s), the situation of the claimed boundary case. -/
def sAtTASmin : State :=
  { baseState with TAS_min := 19, tas_state := 19 }

theorem eps_pos : (0 : ℚ) < FLT_EPSILON := by norm_num [FLT_EPSILON]

theorem le_qmax_l (a b : ℚ) : a ≤ qmax a b := by
  unfold qmax; split_ifs <;> linarith

theorem le_qmax_r (a b : ℚ) : b ≤ qmax a b := by
  unfold qmax; split_ifs <;> linarith

theorem constrain_le_hi (v lo hi : ℚ) (h : lo ≤ hi) : constrain v lo hi ≤ hi := by
  unfold constrain; split_ifs <;> linarith

theorem le_constrain_lo (v lo hi : ℚ) (h : lo ≤ hi) : lo ≤ constrain v lo hi := by
  unfold constrain; split_ifs <;> linarith

theorem constrain_mono_arg (lo hi a b : ℚ) (h0 : lo ≤ hi) (h : a ≤ b) :
    constrain a lo hi ≤ constrain b lo hi := by
  unfold constrain; split_ifs <;> linarith

theorem constrain_rate_window (ps c inc lo hi : ℚ) (h1 : lo ≤ ps) (h2 : ps ≤ hi)
    (h3 : lo ≤ c) (h4 : c ≤ hi) (h5 : 0 ≤ inc) :
    lo ≤ constrain ps (c - inc) (c + inc) ∧ constrain ps (c - inc) (c + inc) ≤ hi := by
  unfold constrain; split_ifs <;> constructor <;> linarith

theorem constrain_sum_ge_one (w : ℚ) : 1 ≤ constrain (2 - w) 0 1 + constrain w 0 1 := by
  unfold constrain; split_ifs <;> linarith

theorem constrain_nonpos_01 (v : ℚ) (h : v ≤ 0) : constrain v 0 1 = 0 := by
  unfold constrain; split_ifs <;> linarith

theorem constrain_hi_self (lo hi : ℚ) (h : lo ≤ hi) : constrain hi lo hi = hi := by
  unfold constrain; split_ifs <;> linarith

theorem ramp_props (vfull D x y : ℚ) (hD : 0 < D) (h : x ≤ y) :
    0 ≤ 1 - constrain ((x - vfull) / D) 0 1 ∧
    1 - constrain ((x - vfull) / D) 0 1 ≤ 1 ∧
    1 - constrain ((y - vfull) / D) 0 1 ≤ 1 - constrain ((x - vfull) / D) 0 1 := by
  have h1 := constrain_le_hi ((x - vfull) / D) 0 1 (by norm_num)
  have h2 := le_constrain_lo ((x - vfull) / D) 0 1 (by norm_num)
  have h3 : (x - vfull) / D ≤ (y - vfull) / D := by gcongr
  have h4 := constrain_mono_arg 0 1 ((x - vfull) / D) ((y - vfull) / D) (by norm_num) h3
  exact ⟨by linarith, by linarith, by linarith⟩

/-- C9: the underspeed ramp output lies in [0, 1] and, for fixed TAS_min and
EAS_trim (here: a fixed configuration), is monotone non-increasing in the
filtered TAS state. -/
theorem C9_percent_range_mono (cfg : Config) (TASmin x y : ℚ) (h : x ≤ y) :
    0 ≤ percentUndersped cfg TASmin x ∧ percentUndersped cfg TASmin x ≤ 1 ∧
    percentUndersped cfg TASmin y ≤ percentUndersped cfg TASmin x := by
  unfold percentUndersped
  by_cases hd : cfg.detect_underspeed_enabled = false
  · simp [hd]
  · rw [if_neg hd, if_neg hd]
    exact ramp_props _ _ x y (lt_of_lt_of_le eps_pos (le_qmax_r _ _)) h

theorem C9_witness :
    0 ≤ percentUndersped baseConfig 19 15 ∧ percentUndersped baseConfig 19 15 ≤ 1 ∧
    percentUndersped baseConfig 19 16 ≤ percentUndersped baseConfig 19 15 :=
  C9_percent_range_mono baseConfig 19 15 16 (by norm_num)

/-- C10: after the weight-update stage, SPE_weighting and SKE_weighting lie
in [0, 1] and their sum is at least 1, for every configuration and every
combination of climbout, underspeed and airspeed-sensing state. -/
theorem C10_weights (cfg : Config) (s : State) :
    (0 ≤ (update_speed_height_weights cfg s).SPE_weighting ∧
      (update_speed_height_weights cfg s).SPE_weighting ≤ 1) ∧
    (0 ≤ (update_speed_height_weights cfg s).SKE_weighting ∧
      (update_speed_height_weights cfg s).SKE_weighting ≤ 1) ∧
    1 ≤ (update_speed_height_weights cfg s).SPE_weighting +
      (update_speed_height_weights cfg s).SKE_weighting := by
  unfold update_speed_height_weights
  dsimp only
  exact ⟨⟨le_constrain_lo _ _ _ (by norm_num), constrain_le_hi _ _ _ (by norm_num)⟩,
    ⟨le_constrain_lo _ _ _ (by norm_num), constrain_le_hi _ _ _ (by norm_num)⟩,
    constrain_sum_ge_one _⟩

theorem C2_counterexample :
    pitchIncrement baseConfig baseState ≠
      baseState.dt * baseConfig.vert_accel_limit / qmax baseState.tas_state FLT_EPSILON := by
  norm_num [pitchIncrement, baseState, baseConfig, qmax, FLT_EPSILON]

/-- C2 (amended): the TAS-rate-limit divisions of the speed-setpoint stage
are guarded by max(tas_state, FLT_EPSILON), which is at least FLT_EPSILON
and hence positive; the divisors of the pitch law, tas_state * g (the climb-angle
conversion) and tas_state (the pitch-rate increment) are unguarded and both
vanish when tas_state = 0. -/
theorem C2_division_guards (cfg : Config) (s : State) (h : s.tas_state = 0) :
    FLT_EPSILON ≤ tasRateDivisor s ∧ (0 : ℚ) < tasRateDivisor s ∧
    climbAngleToSEBRate s = 0 ∧ pitchIncrement cfg s = 0 := by
  refine ⟨le_qmax_r _ _, lt_of_lt_of_le eps_pos (le_qmax_r _ _), ?_, ?_⟩
  · simp [climbAngleToSEBRate, h]
  · simp [pitchIncrement, h]

theorem C2_witness :
    FLT_EPSILON ≤ tasRateDivisor baseState ∧ (0 : ℚ) < tasRateDivisor baseState ∧
    climbAngleToSEBRate baseState = 0 ∧ pitchIncrement baseConfig baseState = 0 :=
  C2_division_guards baseConfig baseState rfl

theorem C5_counterexample :
    (update_throttle_setpoint cfgNoAirspeed sIntegKeep).throttle_integ_state ≠ 0 := by
  norm_num [update_throttle_setpoint, cfgNoAirspeed, sIntegKeep, baseConfig, baseState]

/-- C5 (amended): with airspeed sensing disabled the throttle law uses the
predicted (feedforward) throttle only — the proportional/derivative and
integrator contributions are dropped — and the throttle integrator state is
left unchanged, not zeroed. -/
theorem C5_feedforward_only (cfg : Config) (s : State) (h : cfg.airspeed_enabled = false) :
    (update_throttle_setpoint cfg s).throttle_integ_state = s.throttle_integ_state ∧
    (update_throttle_setpoint cfg s).last_throttle_setpoint =
      constrain
        (if 1 / 100 < qabs cfg.throttle_slewrate then
          constrain
            (s.percent_undersped * s.throttle_setpoint_max +
              (1 - s.percent_undersped) * throttlePredicted s (throttleSTERateSetpoint cfg s))
            (s.last_throttle_setpoint -
              s.dt * (s.throttle_setpoint_max - s.throttle_setpoint_min) * cfg.throttle_slewrate)
            (s.last_throttle_setpoint +
              s.dt * (s.throttle_setpoint_max - s.throttle_setpoint_min) * cfg.throttle_slewrate)
        else
          s.percent_undersped * s.throttle_setpoint_max +
            (1 - s.percent_undersped) * throttlePredicted s (throttleSTERateSetpoint cfg s))
        s.throttle_setpoint_min s.throttle_setpoint_max := by
  constructor <;> simp [update_throttle_setpoint, h]

theorem C5_witness :
    (update_throttle_setpoint cfgNoAirspeed sIntegKeep).throttle_integ_state =
      sIntegKeep.throttle_integ_state :=
  (C5_feedforward_only cfgNoAirspeed sIntegKeep rfl).1

theorem C6_counterexample :
    (update_energy_estimates baseConfig sEnergy).STE_error ≠
      (update_energy_estimates baseConfig sEnergy).SPE_setpoint -
        (update_energy_estimates baseConfig sEnergy).SPE_estimate +
        (update_energy_estimates baseConfig sEnergy).SKE_setpoint -
        (update_energy_estimates baseConfig sEnergy).SKE_estimate := by
  norm_num [update_energy_estimates, sEnergy, baseState, CONSTANTS_ONE_G]

/-- C6 (amended): after the energy-accountant stage, STE_error equals the
current setpoints minus the estimates computed by the previous invocation
of the stage (the values held in the state on entry); the estimate fields
themselves are refreshed from the current tas_state and vert_pos_state
only after the error is formed. -/
theorem C6_energy_error_lag (cfg : Config) (s : State) :
    (update_energy_estimates cfg s).STE_error =
      (update_energy_estimates cfg s).SPE_setpoint - s.SPE_estimate +
        (update_energy_estimates cfg s).SKE_setpoint - s.SKE_estimate ∧
    (update_energy_estimates cfg s).SPE_estimate = s.vert_pos_state * CONSTANTS_ONE_G ∧
    (update_energy_estimates cfg s).SKE_estimate = (1 / 2) * s.tas_state * s.tas_state := by
  unfold update_energy_estimates
  exact ⟨rfl, rfl, rfl⟩

theorem C7_counterexample :
    sLatchEps.uncommanded_descent_recovery = false ∧
    (detect_uncommanded_descent baseConfig sLatchEps).uncommanded_descent_recovery = true ∧
    sLatchEps.percent_undersped ≠ 0 := by
  refine ⟨rfl, ?_, ?_⟩
  · norm_num [detect_uncommanded_descent, sLatchEps, baseState, FLT_EPSILON]
  · norm_num [sLatchEps, baseState, FLT_EPSILON]

/-- C7 (amended): the uncommanded-descent latch transitions exactly as the
code states them, with the underspeed tests at the FLT_EPSILON threshold:
it becomes true iff it was false, percent_undersped ≤ FLT_EPSILON,
STE_error > 200, SPE_rate + SKE_rate < 0 and
last_throttle_setpoint ≥ 0.9 * throttle_setpoint_max; it becomes false iff
it was true and (percent_undersped > FLT_EPSILON or STE_error < 0);
otherwise it is unchanged. -/
theorem C7_latch_transitions (cfg : Config) (s : State) :
    ((s.uncommanded_descent_recovery = false ∧
        (detect_uncommanded_descent cfg s).uncommanded_descent_recovery = true) ↔
      (s.uncommanded_descent_recovery = false ∧ ¬ FLT_EPSILON < s.percent_undersped ∧
        200 < s.STE_error ∧ s.SPE_rate + s.SKE_rate < 0 ∧
        s.throttle_setpoint_max * (9 / 10) ≤ s.last_throttle_setpoint)) ∧
    ((s.uncommanded_descent_recovery = true ∧
        (detect_uncommanded_descent cfg s).uncommanded_descent_recovery = false) ↔
      (s.uncommanded_descent_recovery = true ∧
        (FLT_EPSILON < s.percent_undersped ∨ s.STE_error < 0))) ∧
    (¬ (s.uncommanded_descent_recovery = false ∧ ¬ FLT_EPSILON < s.percent_undersped ∧
          200 < s.STE_error ∧ s.SPE_rate + s.SKE_rate < 0 ∧
          s.throttle_setpoint_max * (9 / 10) ≤ s.last_throttle_setpoint) →
      ¬ (s.uncommanded_descent_recovery = true ∧
          (FLT_EPSILON < s.percent_undersped ∨ s.STE_error < 0)) →
      (detect_uncommanded_descent cfg s).uncommanded_descent_recovery =
        s.uncommanded_descent_recovery) := by
  unfold detect_uncommanded_descent
  dsimp only
  refine ⟨?_, ?_, ?_⟩
  · split_ifs with h1 h2 <;> simp_all
  · split_ifs with h1 h2 <;> simp_all
  · intro hne hnx
    split_ifs
    rfl

theorem C7_witness :
    sLatchEps.uncommanded_descent_recovery = false ∧
    (detect_uncommanded_descent baseConfig sLatchEps).uncommanded_descent_recovery = true :=
  ⟨rfl, by
    have h := (C7_latch_transitions baseConfig sLatchEps).1.mpr
      (by norm_num [sLatchEps, baseState, FLT_EPSILON])
    exact h.2⟩

theorem publishedMode_cases (p : ℚ) (u c : Bool) :
    (publishedMode p u c = TecsMode.UNDERSPEED ↔ FLT_EPSILON < p) ∧
    (publishedMode p u c = TecsMode.BAD_DESCENT ↔
      ¬ FLT_EPSILON < p ∧ u = true) ∧
    (publishedMode p u c = TecsMode.CLIMBOUT ↔
      ¬ FLT_EPSILON < p ∧ u = false ∧ c = true) ∧
    (publishedMode p u c = TecsMode.NORMAL ↔
      ¬ FLT_EPSILON < p ∧ u = false ∧ c = false) := by
  unfold publishedMode
  split_ifs with h1 h2 h3 <;> simp_all

theorem C8_counterexample :
    0 < (update_pitch_throttle baseConfig 1020000 0 100 vEps (some vEps) 1 false 0 0 1 (1 / 2)
        (-1 / 2) (1 / 2) (100, 0) sEpsU).percent_undersped ∧
    (update_pitch_throttle baseConfig 1020000 0 100 vEps (some vEps) 1 false 0 0 1 (1 / 2)
        (-1 / 2) (1 / 2) (100, 0) sEpsU).tecs_mode ≠ TecsMode.UNDERSPEED := by
  constructor <;>
    norm_num [update_pitch_throttle, preStep, stepFromDetect, midStep, initStates, update_speed_states,
      update_STE_rate_lim, detect_underspeed, percentUndersped, update_speed_height_weights,
      detect_uncommanded_descent, update_speed_setpoint, update_energy_estimates,
      update_throttle_setpoint, throttlePredicted, throttleSTERateSetpoint,
      update_pitch_setpoint, publishedMode, climbAngleToSEBRate, pitchIncrement,
      tasRateDivisor, storedEAS, constrain, qmax, qmin, qabs, FLT_EPSILON, DT_MIN, DT_MAX,
      DT_DEFAULT, CONSTANTS_ONE_G, kTASErrorPercentage, baseState, baseConfig, sEpsU, vEps] <;>
    decide

/-- C8 (amended): at the end of every step the published tecs_mode follows
the precedence UNDERSPEED > BAD_DESCENT > CLIMBOUT > NORMAL, with the
underspeed test at the FLT_EPSILON threshold: the mode is UNDERSPEED iff
percent_undersped > FLT_EPSILON; else BAD_DESCENT iff the
uncommanded-descent latch is set; else CLIMBOUT iff climbout is active;
else NORMAL. -/
theorem C8_mode_precedence (cfg : Config) (now : ℕ)
    (pitch baro_altitude EAS_setpoint : ℚ) (equivalent_airspeed : Option ℚ)
    (eas_to_tas : ℚ) (climb_out_setpoint : Bool)
    (pitch_min_climbout throttle_min throttle_max throttle_trim
      pitch_limit_min pitch_limit_max : ℚ) (hgt : ℚ × ℚ) (s : State) :
    let t := update_pitch_throttle cfg now pitch baro_altitude EAS_setpoint
      equivalent_airspeed eas_to_tas climb_out_setpoint pitch_min_climbout throttle_min
      throttle_max throttle_trim pitch_limit_min pitch_limit_max hgt s
    (t.tecs_mode = TecsMode.UNDERSPEED ↔ FLT_EPSILON < t.percent_undersped) ∧
    (t.tecs_mode = TecsMode.BAD_DESCENT ↔
      ¬ FLT_EPSILON < t.percent_undersped ∧ t.uncommanded_descent_recovery = true) ∧
    (t.tecs_mode = TecsMode.CLIMBOUT ↔
      ¬ FLT_EPSILON < t.percent_undersped ∧ t.uncommanded_descent_recovery = false ∧
        t.climbout_mode_active = true) ∧
    (t.tecs_mode = TecsMode.NORMAL ↔
      ¬ FLT_EPSILON < t.percent_undersped ∧ t.uncommanded_descent_recovery = false ∧
        t.climbout_mode_active = false) := by
  intro t
  have hmode : t.tecs_mode = publishedMode t.percent_undersped
      t.uncommanded_descent_recovery t.climbout_mode_active := rfl
  rw [hmode]
  exact publishedMode_cases _ _ _

theorem ramp_full (vfull D tas : ℚ) (hD : 0 < D) (h : tas ≤ vfull) :
    1 - constrain ((tas - vfull) / D) 0 1 = 1 := by
  have hnum : tas - vfull ≤ 0 := by linarith
  have h2 : (tas - vfull) / D ≤ 0 / D := by gcongr
  rw [zero_div] at h2
  rw [constrain_nonpos_01 _ h2]
  norm_num

theorem C3_counterexample :
    (detect_underspeed baseConfig sAtTASmin).percent_undersped = 0 ∧
    (detect_underspeed baseConfig sAtTASmin).percent_undersped ≠ 1 := by
  constructor <;>
    norm_num [detect_underspeed, percentUndersped, constrain, qmax, baseConfig, baseState,
      sAtTASmin, kTASErrorPercentage, FLT_EPSILON]

/-- C3 (amended): with detection enabled, percent_undersped reaches 1 only
in full underspeed, i.e. when the filtered TAS state is at or below
max(TAS_min - 2 * kTASErrorPercentage * EAS_trim, 0) (at tas_state =
TAS_min the detector yields 0, see the counterexample); and whenever
percent_undersped = 1, the throttle slew limit is inactive and
throttle_min ≤ throttle_max, the remainder of the step publishes
throttle_max as the throttle setpoint and UNDERSPEED as the tecs_mode. -/
theorem C3_full_underspeed (cfg : Config) (hgt : ℚ × ℚ) (s : State)
    (hdet : cfg.detect_underspeed_enabled = true)
    (htas : s.tas_state ≤ qmax (s.TAS_min - kTASErrorPercentage * cfg.equivalent_airspeed_trim
      - kTASErrorPercentage * cfg.equivalent_airspeed_trim) 0)
    (hslew : qabs cfg.throttle_slewrate ≤ 1 / 100)
    (hminmax : s.throttle_setpoint_min ≤ s.throttle_setpoint_max) :
    (detect_underspeed cfg s).percent_undersped = 1 ∧
    (stepFromDetect cfg hgt s).last_throttle_setpoint = s.throttle_setpoint_max ∧
    (stepFromDetect cfg hgt s).tecs_mode = TecsMode.UNDERSPEED := by
  have hp : percentUndersped cfg s.TAS_min s.tas_state = 1 := by
    unfold percentUndersped
    rw [if_neg (by simp [hdet])]
    exact ramp_full _ _ _ (lt_of_lt_of_le eps_pos (le_qmax_r _ _)) htas
  have hsl : ¬ (1 / 100 : ℚ) < qabs cfg.throttle_slewrate := not_lt.mpr hslew
  have hone : FLT_EPSILON < (1 : ℚ) := by norm_num [FLT_EPSILON]
  refine ⟨hp, ?_, ?_⟩
  · simp only [stepFromDetect, midStep, detect_underspeed, update_speed_height_weights,
      detect_uncommanded_descent, update_speed_setpoint, update_energy_estimates,
      update_throttle_setpoint, update_pitch_setpoint, throttlePredicted,
      throttleSTERateSetpoint, climbAngleToSEBRate, pitchIncrement, tasRateDivisor,
      publishedMode]
    have hsl2 : ¬ (100 : ℚ)⁻¹ < qabs cfg.throttle_slewrate := by
      rw [show ((100 : ℚ)⁻¹) = 1 / 100 by norm_num]
      exact hsl
    simp [hp, hsl2]
    exact constrain_hi_self _ _ hminmax
  · simp only [stepFromDetect, midStep, detect_underspeed, update_speed_height_weights,
      detect_uncommanded_descent, update_speed_setpoint, update_energy_estimates,
      update_throttle_setpoint, update_pitch_setpoint, throttlePredicted,
      throttleSTERateSetpoint, climbAngleToSEBRate, pitchIncrement, tasRateDivisor,
      publishedMode]
    simp [hp, hone]

theorem C3_witness :
    (detect_underspeed baseConfig sUnderspeedFull).percent_undersped = 1 ∧
    (stepFromDetect baseConfig (100, 0) sUnderspeedFull).last_throttle_setpoint =
      sUnderspeedFull.throttle_setpoint_max ∧
    (stepFromDetect baseConfig (100, 0) sUnderspeedFull).tecs_mode = TecsMode.UNDERSPEED :=
  C3_full_underspeed baseConfig (100, 0) sUnderspeedFull rfl
    (by norm_num [sUnderspeedFull, baseState, baseConfig, qmax, kTASErrorPercentage])
    (by norm_num [baseConfig, qabs])
    (by norm_num [sUnderspeedFull, baseState])

theorem C4_counterexample :
    (update_pitch_throttle cfgTrim15 1020000 0 100 15 (some 30) 1 false 0 0 1 (1 / 2)
        (-1 / 2) (1 / 2) (100, 0)
        (update_vehicle_state_estimates cfgTrim15 1000000 (some 30) 0 false 100 0 sStale)).tas_state ≠
      cfgTrim15.equivalent_airspeed_trim * 1 := by
  norm_num [update_pitch_throttle, preStep, stepFromDetect, midStep, initStates, update_speed_states,
    update_STE_rate_lim, detect_underspeed, percentUndersped, update_speed_height_weights,
    detect_uncommanded_descent, update_speed_setpoint, update_energy_estimates,
    update_throttle_setpoint, throttlePredicted, throttleSTERateSetpoint,
    update_pitch_setpoint, publishedMode, climbAngleToSEBRate, pitchIncrement,
    tasRateDivisor, storedEAS, update_vehicle_state_estimates, constrain, qmax, qmin, qabs,
    FLT_EPSILON, DT_MIN, DT_MAX, DT_DEFAULT, CONSTANTS_ONE_G, kTASErrorPercentage,
    baseState, baseConfig, cfgTrim15, sStale]

/-- C4 (amended): for every step in which the equivalent airspeed input is
non-finite or airspeed sensing is disabled, the TAS filter is driven with
the trim airspeed (the stored EAS becomes EAS_trim); the first-call reset
of the speed filter itself (speed_update_timestamp = 0, with tas_rate_raw = 0 and a
nonnegative trim TAS) leaves tas_state = EAS_trim * EAS2TAS after the
step; and update_vehicle_state_estimates forces tas_rate_raw and
tas_rate_filtered to 0.  (The general state reset of the initializer, by
contrast, seeds tas_state from the last stored raw EAS input, not from the
trim — see the counterexample.) -/
theorem C4_trim_drive (cfg : Config) (now : ℕ)
    (pitch baro_altitude EAS_setpoint : ℚ) (eas : Option ℚ) (E : ℚ) (co : Bool)
    (pminc tmin tmax ttrim plmin plmax : ℚ) (hgt : ℚ × ℚ)
    (accel : ℚ) (lock : Bool) (alt vz : ℚ) (s : State)
    (hcond : eas = none ∨ cfg.airspeed_enabled = false)
    (hts : s.speed_update_timestamp = 0) (hraw : s.tas_rate_raw = 0)
    (htrim : 0 ≤ cfg.equivalent_airspeed_trim * E) :
    (update_pitch_throttle cfg now pitch baro_altitude EAS_setpoint eas E co pminc
        tmin tmax ttrim plmin plmax hgt s).EAS = some cfg.equivalent_airspeed_trim ∧
    (update_pitch_throttle cfg now pitch baro_altitude EAS_setpoint eas E co pminc
        tmin tmax ttrim plmin plmax hgt s).tas_state = cfg.equivalent_airspeed_trim * E ∧
    (update_vehicle_state_estimates cfg now eas accel lock alt vz s).tas_rate_raw = 0 ∧
    (update_vehicle_state_estimates cfg now eas accel lock alt vz s).tas_rate_filtered = 0 := by
  have hnn : ¬ cfg.equivalent_airspeed_trim * E < 0 := not_lt.mpr htrim
  rcases hcond with h | h
  · subst h
    refine ⟨?_, ?_, ?_, ?_⟩ <;>
      simp [update_pitch_throttle, preStep, stepFromDetect, midStep, initStates, update_speed_states,
        update_STE_rate_lim, detect_underspeed, update_speed_height_weights,
        detect_uncommanded_descent, update_speed_setpoint, update_energy_estimates,
        update_throttle_setpoint, update_pitch_setpoint, update_vehicle_state_estimates,
        storedEAS, hts, hraw, hnn]
  · refine ⟨?_, ?_, ?_, ?_⟩ <;>
      simp [update_pitch_throttle, preStep, stepFromDetect, midStep, initStates, update_speed_states,
        update_STE_rate_lim, detect_underspeed, update_speed_height_weights,
        detect_uncommanded_descent, update_speed_setpoint, update_energy_estimates,
        update_throttle_setpoint, update_pitch_setpoint, update_vehicle_state_estimates,
        storedEAS, h, hts, hraw, hnn]

theorem C4_witness :
    (update_pitch_throttle cfgTrim15 1020000 0 100 15 (some 22) 1 false 0 0 1 (1 / 2)
        (-1 / 2) (1 / 2) (100, 0) sSpeedReset).EAS =
      some cfgTrim15.equivalent_airspeed_trim ∧
    (update_pitch_throttle cfgTrim15 1020000 0 100 15 (some 22) 1 false 0 0 1 (1 / 2)
        (-1 / 2) (1 / 2) (100, 0) sSpeedReset).tas_state =
      cfgTrim15.equivalent_airspeed_trim * 1 ∧
    (update_vehicle_state_estimates cfgTrim15 1020000 (some 22) 0 true 100 0
        sSpeedReset).tas_rate_raw = 0 ∧
    (update_vehicle_state_estimates cfgTrim15 1020000 (some 22) 0 true 100 0
        sSpeedReset).tas_rate_filtered = 0 :=
  C4_trim_drive cfgTrim15 1020000 0 100 15 (some 22) 1 false 0 0 1 (1 / 2) (-1 / 2) (1 / 2)
    (100, 0) 0 true 100 0 sSpeedReset (Or.inr rfl) rfl rfl
    (by norm_num [cfgTrim15, baseConfig])

theorem throttle_stage_bounds (cfg : Config) (s : State)
    (h : s.throttle_setpoint_min ≤ s.throttle_setpoint_max) :
    s.throttle_setpoint_min ≤ (update_throttle_setpoint cfg s).last_throttle_setpoint ∧
    (update_throttle_setpoint cfg s).last_throttle_setpoint ≤ s.throttle_setpoint_max := by
  unfold update_throttle_setpoint
  dsimp only
  exact ⟨le_constrain_lo _ _ _ h, constrain_le_hi _ _ _ h⟩

theorem pitch_stage_bounds (cfg : Config) (s : State)
    (h0 : s.pitch_setpoint_min ≤ s.pitch_setpoint_max)
    (h1 : s.pitch_setpoint_min ≤ s.last_pitch_setpoint)
    (h2 : s.last_pitch_setpoint ≤ s.pitch_setpoint_max)
    (hv : 0 ≤ cfg.vert_accel_limit) (ht : 0 ≤ s.tas_state) (hd : 0 ≤ s.dt) :
    s.pitch_setpoint_min ≤ (update_pitch_setpoint cfg s).last_pitch_setpoint ∧
    (update_pitch_setpoint cfg s).last_pitch_setpoint ≤ s.pitch_setpoint_max := by
  have hinc : 0 ≤ pitchIncrement cfg s := by
    unfold pitchIncrement
    exact div_nonneg (mul_nonneg hd hv) ht
  unfold update_pitch_setpoint
  dsimp only
  exact constrain_rate_window _ _ _ _ _
    (le_constrain_lo _ _ _ h0) (constrain_le_hi _ _ _ h0) h1 h2 hinc

theorem throttle_stage_preserves (cfg : Config) (u : State) :
    (update_throttle_setpoint cfg u).pitch_setpoint_min = u.pitch_setpoint_min ∧
    (update_throttle_setpoint cfg u).pitch_setpoint_max = u.pitch_setpoint_max ∧
    (update_throttle_setpoint cfg u).last_pitch_setpoint = u.last_pitch_setpoint ∧
    (update_throttle_setpoint cfg u).tas_state = u.tas_state ∧
    (update_throttle_setpoint cfg u).dt = u.dt := by
  simp [update_throttle_setpoint]

theorem midStep_preserves (cfg : Config) (hgt : ℚ × ℚ) (x : State) :
    (midStep cfg hgt x).throttle_setpoint_min = x.throttle_setpoint_min ∧
    (midStep cfg hgt x).throttle_setpoint_max = x.throttle_setpoint_max ∧
    (midStep cfg hgt x).pitch_setpoint_min = x.pitch_setpoint_min ∧
    (midStep cfg hgt x).pitch_setpoint_max = x.pitch_setpoint_max ∧
    (midStep cfg hgt x).last_pitch_setpoint = x.last_pitch_setpoint ∧
    (midStep cfg hgt x).tas_state = x.tas_state ∧
    (midStep cfg hgt x).dt = x.dt := by
  simp [midStep, update_energy_estimates, update_speed_setpoint,
    detect_uncommanded_descent, update_speed_height_weights, detect_underspeed]

theorem stepFromDetect_proj (cfg : Config) (hgt : ℚ × ℚ) (x : State) :
    (stepFromDetect cfg hgt x).last_throttle_setpoint =
      (update_throttle_setpoint cfg (midStep cfg hgt x)).last_throttle_setpoint ∧
    (stepFromDetect cfg hgt x).last_pitch_setpoint =
      (update_pitch_setpoint cfg
        (update_throttle_setpoint cfg (midStep cfg hgt x))).last_pitch_setpoint := by
  constructor
  · rfl
  · simp only [stepFromDetect]

theorem step_bounds_core (cfg : Config) (hgt : ℚ × ℚ) (x : State)
    (hth : x.throttle_setpoint_min ≤ x.throttle_setpoint_max)
    (hpl : x.pitch_setpoint_min ≤ x.pitch_setpoint_max)
    (hl1 : x.pitch_setpoint_min ≤ x.last_pitch_setpoint)
    (hl2 : x.last_pitch_setpoint ≤ x.pitch_setpoint_max)
    (hv : 0 ≤ cfg.vert_accel_limit) (hts : 0 ≤ x.tas_state) (hdt : 0 ≤ x.dt) :
    (x.throttle_setpoint_min ≤ (stepFromDetect cfg hgt x).last_throttle_setpoint ∧
      (stepFromDetect cfg hgt x).last_throttle_setpoint ≤ x.throttle_setpoint_max) ∧
    (x.pitch_setpoint_min ≤ (stepFromDetect cfg hgt x).last_pitch_setpoint ∧
      (stepFromDetect cfg hgt x).last_pitch_setpoint ≤ x.pitch_setpoint_max) := by
  obtain ⟨m1, m2, mm1, mm2, mm3, mm4, mm5⟩ := midStep_preserves cfg hgt x
  obtain ⟨q1, q2, q3, q4, q5⟩ := throttle_stage_preserves cfg (midStep cfg hgt x)
  obtain ⟨e1, e2⟩ := stepFromDetect_proj cfg hgt x
  have p1 := q1.trans mm1
  have p2 := q2.trans mm2
  have p3 := q3.trans mm3
  have p4 := q4.trans mm4
  have p5 := q5.trans mm5
  constructor
  · obtain ⟨a1, a2⟩ := throttle_stage_bounds cfg (midStep cfg hgt x) (by rw [m1, m2]; exact hth)
    rw [m1] at a1
    rw [m2] at a2
    rw [e1]
    exact ⟨a1, a2⟩
  · obtain ⟨b1, b2⟩ := pitch_stage_bounds cfg (update_throttle_setpoint cfg (midStep cfg hgt x))
      (by rw [p1, p2]; exact hpl) (by rw [p1, p3]; exact hl1) (by rw [p3, p2]; exact hl2)
      hv (by rw [p4]; exact hts) (by rw [p5]; exact hdt)
    rw [p1] at b1
    rw [p2] at b2
    rw [e2]
    exact ⟨b1, b2⟩

theorem preStep_facts (cfg : Config) (now : ℕ)
    (pitch baro_altitude EAS_setpoint : ℚ) (eas : Option ℚ) (E : ℚ)
    (pminc tmin tmax ttrim plmin plmax : ℚ) (s : State)
    (hpl : plmin ≤ plmax)
    (hl1 : plmin ≤ s.last_pitch_setpoint) (hl2 : s.last_pitch_setpoint ≤ plmax) :
    (preStep cfg now pitch baro_altitude EAS_setpoint eas E false pminc tmin tmax ttrim
        plmin plmax s).throttle_setpoint_min = tmin ∧
    (preStep cfg now pitch baro_altitude EAS_setpoint eas E false pminc tmin tmax ttrim
        plmin plmax s).throttle_setpoint_max = tmax ∧
    (preStep cfg now pitch baro_altitude EAS_setpoint eas E false pminc tmin tmax ttrim
        plmin plmax s).pitch_setpoint_min = plmin ∧
    (preStep cfg now pitch baro_altitude EAS_setpoint eas E false pminc tmin tmax ttrim
        plmin plmax s).pitch_setpoint_max = plmax ∧
    plmin ≤ (preStep cfg now pitch baro_altitude EAS_setpoint eas E false pminc tmin tmax ttrim
        plmin plmax s).last_pitch_setpoint ∧
    (preStep cfg now pitch baro_altitude EAS_setpoint eas E false pminc tmin tmax ttrim
        plmin plmax s).last_pitch_setpoint ≤ plmax ∧
    0 ≤ (preStep cfg now pitch baro_altitude EAS_setpoint eas E false pminc tmin tmax ttrim
        plmin plmax s).tas_state ∧
    0 ≤ (preStep cfg now pitch baro_altitude EAS_setpoint eas E false pminc tmin tmax ttrim
        plmin plmax s).dt := by
  unfold preStep update_STE_rate_lim update_speed_states initStates
  dsimp only
  refine ⟨by simp, rfl, by simp, rfl, ?_, ?_, ?_, ?_⟩
  · split_ifs with h
    · exact le_constrain_lo _ _ _ hpl
    · exact hl1
  · split_ifs with h
    · exact constrain_le_hi _ _ _ hpl
    · exact hl2
  · split_ifs <;> linarith
  · split_ifs
    · norm_num [DT_DEFAULT]
    · exact le_trans (by norm_num [DT_MIN]) (le_qmax_r _ _)

theorem C1_counterexample :
    (1 : ℚ) / 10 <
      (update_pitch_throttle cfgNoDetect 1020000 0 100 20 (some 20) 1 false 0 0 1 (1 / 2)
        (-1 / 10) (1 / 10) (100, 0) sPitchJump).last_pitch_setpoint := by
  norm_num [update_pitch_throttle, preStep, stepFromDetect, midStep, initStates,
    update_speed_states, update_STE_rate_lim, detect_underspeed, percentUndersped,
    update_speed_height_weights, detect_uncommanded_descent, update_speed_setpoint,
    update_energy_estimates, update_throttle_setpoint, throttlePredicted,
    throttleSTERateSetpoint, update_pitch_setpoint, publishedMode, climbAngleToSEBRate,
    pitchIncrement, tasRateDivisor, storedEAS, constrain, qmax, qmin, qabs, FLT_EPSILON,
    DT_MIN, DT_MAX, DT_DEFAULT, CONSTANTS_ONE_G, kTASErrorPercentage, baseState,
    baseConfig, sPitchJump, cfgNoDetect]

/-- C1 (amended): after every call to update_pitch_throttle with climbout
inactive, throttle_min ≤ throttle_max, pitch_limit_min ≤ pitch_limit_max,
a nonnegative vertical acceleration limit, and the incoming
last_pitch_setpoint already inside [pitch_limit_min, pitch_limit_max] (as
holds whenever the pitch limits are unchanged since the previous call),
the published throttle setpoint lies in [throttle_min, throttle_max] and
the published pitch setpoint lies in [pitch_limit_min, pitch_limit_max].
Without the last-pitch condition the pitch-rate limiter can publish a
pitch outside the freshly passed limits (see the counterexample), and in
climbout the throttle floor is overridden to throttle_max - 0.01. -/
theorem C1_output_bounds (cfg : Config) (now : ℕ)
    (pitch baro_altitude EAS_setpoint : ℚ) (eas : Option ℚ) (E : ℚ)
    (pminc tmin tmax ttrim plmin plmax : ℚ) (hgt : ℚ × ℚ) (s : State)
    (hth : tmin ≤ tmax) (hpl : plmin ≤ plmax)
    (hl1 : plmin ≤ s.last_pitch_setpoint) (hl2 : s.last_pitch_setpoint ≤ plmax)
    (hv : 0 ≤ cfg.vert_accel_limit) :
    tmin ≤ (update_pitch_throttle cfg now pitch baro_altitude EAS_setpoint eas E false
        pminc tmin tmax ttrim plmin plmax hgt s).last_throttle_setpoint ∧
    (update_pitch_throttle cfg now pitch baro_altitude EAS_setpoint eas E false
        pminc tmin tmax ttrim plmin plmax hgt s).last_throttle_setpoint ≤ tmax ∧
    plmin ≤ (update_pitch_throttle cfg now pitch baro_altitude EAS_setpoint eas E false
        pminc tmin tmax ttrim plmin plmax hgt s).last_pitch_setpoint ∧
    (update_pitch_throttle cfg now pitch baro_altitude EAS_setpoint eas E false
        pminc tmin tmax ttrim plmin plmax hgt s).last_pitch_setpoint ≤ plmax := by
  obtain ⟨f1, f2, f3, f4, f5, f6, f7, f8⟩ := preStep_facts cfg now pitch baro_altitude
    EAS_setpoint eas E pminc tmin tmax ttrim plmin plmax s hpl hl1 hl2
  obtain ⟨⟨a1, a2⟩, b1, b2⟩ := step_bounds_core cfg hgt
    (preStep cfg now pitch baro_altitude EAS_setpoint eas E false pminc tmin tmax ttrim
      plmin plmax s)
    (by rw [f1, f2]; exact hth) (by rw [f3, f4]; exact hpl) (by rw [f3]; exact f5)
    (by rw [f4]; exact f6) hv f7 f8
  rw [f1] at a1
  rw [f2] at a2
  rw [f3] at b1
  rw [f4] at b2
  have g1 : (update_pitch_throttle cfg now pitch baro_altitude EAS_setpoint eas E false
      pminc tmin tmax ttrim plmin plmax hgt s).last_throttle_setpoint =
      (stepFromDetect cfg hgt (preStep cfg now pitch baro_altitude EAS_setpoint eas E false
        pminc tmin tmax ttrim plmin plmax s)).last_throttle_setpoint := rfl
  have g2 : (update_pitch_throttle cfg now pitch baro_altitude EAS_setpoint eas E false
      pminc tmin tmax ttrim plmin plmax hgt s).last_pitch_setpoint =
      (stepFromDetect cfg hgt (preStep cfg now pitch baro_altitude EAS_setpoint eas E false
        pminc tmin tmax ttrim plmin plmax s)).last_pitch_setpoint := rfl
  rw [g1, g2]
  exact ⟨a1, a2, b1, b2⟩

theorem C1_witness :
    (1 : ℚ) / 10 ≤
      (update_pitch_throttle baseConfig 1020000 0 100 20 (some 20) 1 false 0 (1 / 10) 1
        (1 / 2) (-1 / 2) (1 / 2) (100, 0) sInRange).last_throttle_setpoint ∧
    (update_pitch_throttle baseConfig 1020000 0 100 20 (some 20) 1 false 0 (1 / 10) 1
        (1 / 2) (-1 / 2) (1 / 2) (100, 0) sInRange).last_throttle_setpoint ≤ 1 ∧
    (-1 : ℚ) / 2 ≤
      (update_pitch_throttle baseConfig 1020000 0 100 20 (some 20) 1 false 0 (1 / 10) 1
        (1 / 2) (-1 / 2) (1 / 2) (100, 0) sInRange).last_pitch_setpoint ∧
    (update_pitch_throttle baseConfig 1020000 0 100 20 (some 20) 1 false 0 (1 / 10) 1
        (1 / 2) (-1 / 2) (1 / 2) (100, 0) sInRange).last_pitch_setpoint ≤ 1 / 2 :=
  C1_output_bounds baseConfig 1020000 0 100 20 (some 20) 1 0 (1 / 10) 1 (1 / 2) (-1 / 2)
    (1 / 2) (100, 0) sInRange (by norm_num) (by norm_num)
    (by norm_num [sInRange, baseState]) (by norm_num [sInRange, baseState])
    (by norm_num [baseConfig])
